import Mathlib

/-!
Shallow embedding of the authentication flow of the `asrs` user-manager
service (`src/user-manager/userManager/authentication/`):

* `CustomTokenObtainPairView.post` (views.py, lines 29-48): the login
  endpoint with an IP-keyed rate limiter backed by a shared cache;
* `CustomTokenObtainPairSerializer.validate` (serializers.py, lines 12-53):
  credential verification, token minting and `LoginAttempt` logging;
* `validate_token` (views.py, lines 58-99): JWT validation endpoint.

Machine state is explicit: the credential store is a list of `User`
records, the login-attempt log a list of `LoginAttempt` rows, and the
Django cache an association list from string keys to counter entries with
absolute expiry timestamps.  Time is an explicit `Nat` parameter (seconds).
-/

namespace Asrs

/-- A `User` row (authentication/models.py, lines 5-33): the custom Django
user model.  Besides the identity fields used by `authenticate`, it carries
the four account-lockout fields declared at lines 27-30
(`failed_login_attempts`, `last_failed_login`, `is_blocked`,
`blocked_until`). -/
structure User where
  id : Nat
  username : String
  password : String
  isActive : Bool
  failedLoginAttempts : Nat
  lastFailedLogin : Option Nat
  isBlocked : Bool
  blockedUntil : Option Nat
deriving Repr, DecidableEq

/-- A `LoginAttempt` row (authentication/models.py, lines 35-44): an
append-only log entry recording the attempted username, client IP,
user agent and a success flag. -/
structure LoginAttempt where
  username : String
  ipAddress : String
  userAgent : String
  success : Bool
deriving Repr, DecidableEq

/-- One entry of the Django cache: the stored counter value together with
the absolute time at which the entry expires (Django's `cache.set(k, v, t)`
stores `v` until `now + t`). -/
structure CacheEntry where
  count : Nat
  expiresAt : Nat
deriving Repr, DecidableEq

/-- The Django cache, as an association list from keys to entries. -/
abbrev Cache := List (String × CacheEntry)

/-- `cache.get(key, 0)` (views.py, line 33): returns the stored value when
the entry exists and has not expired, and the default `0` otherwise.
Django's local-memory cache treats an entry as live while `now < expiresAt`. -/
def cacheGet (c : Cache) (key : String) (now : Nat) : Nat :=
  match c.find? (fun p => p.fst == key) with
  | some (_, e) => if now < e.expiresAt then e.count else 0
  | none => 0

/-- `cache.set(key, v, 300)` (views.py, line 46): stores `v` under `key`
with expiry `expiresAt`, replacing any previous entry for that key. -/
def cacheSet (c : Cache) (key : String) (v : Nat) (expiresAt : Nat) : Cache :=
  (key, ⟨v, expiresAt⟩) :: c.filter (fun p => p.fst != key)

/-- The mutable state the login flow reads and writes: the credential
store, the append-only `LoginAttempt` log, and the shared cache. -/
structure AuthState where
  users : List User
  attempts : List LoginAttempt
  cache : Cache
deriving Repr, DecidableEq

/-- A login request: submitted credentials plus the request metadata the
views read (`HTTP_X_FORWARDED_FOR`, `REMOTE_ADDR`, `HTTP_USER_AGENT`). -/
structure LoginRequest where
  username : String
  password : String
  xForwardedFor : Option String
  remoteAddr : String
  userAgent : String
deriving Repr, DecidableEq

/-- Helper for `pySplit`: splits a character list at every occurrence of
`sep`, with `acc` holding the (reversed) current chunk. -/
def splitOnChar (sep : Char) (acc : List Char) : List Char → List (List Char)
  | [] => [acc.reverse]
  | c :: cs =>
    if c = sep then acc.reverse :: splitOnChar sep [] cs
    else splitOnChar sep (c :: acc) cs

/-- Python's `s.split(sep)` for a one-character separator: `""` yields
`[""]`, and adjacent/trailing separators yield empty chunks, exactly as in
Python. -/
def pySplit (s : String) (sep : Char) : List String :=
  (splitOnChar sep [] s.data).map String.mk

/-- Python's `s.startswith(pre)`. -/
def pyStartsWith (s pre : String) : Bool :=
  pre.data.isPrefixOf s.data

/-- `get_client_ip` (views.py, lines 50-56 and serializers.py, lines 55-62):
the first comma-separated entry of `X-Forwarded-For` when present,
otherwise `REMOTE_ADDR`. -/
def getClientIp (req : LoginRequest) : String :=
  match req.xForwardedFor with
  | some s => (pySplit s ',').headD s
  | none => req.remoteAddr

/-- The cache key `f"login_attempts_{ip_address}"` (views.py, line 32). -/
def cacheKey (ip : String) : String := "login_attempts_" ++ ip

/-- Username lookup in the credential store (Django's
`ModelBackend.authenticate` first fetches the user by username). -/
def findByUsername (users : List User) (username : String) : Option User :=
  users.find? (fun u => u.username == username)

/-- Django `authenticate(username, password)` as used by the simplejwt
serializer: fetch the user by username, then check the password and the
active flag; any failure yields `none` with no observable distinction. -/
def authenticate (users : List User) (username password : String) : Option User :=
  match findByUsername users username with
  | none => none
  | some u => if u.password == password && u.isActive then some u else none

/-- A signed bearer token: payload `user_id`, issued-at and expiry
timestamps (spec §3 "Token"; minted by simplejwt's `RefreshToken.for_user`). -/
structure Token where
  userId : Nat
  issuedAt : Nat
  exp : Nat
deriving Repr, DecidableEq

/-- simplejwt default `ACCESS_TOKEN_LIFETIME` (5 minutes, in seconds);
the repository does not override it. -/
def accessTokenLifetime : Nat := 300

/-- simplejwt default `REFRESH_TOKEN_LIFETIME` (1 day, in seconds);
the repository does not override it. -/
def refreshTokenLifetime : Nat := 86400

/-- Mint a token for `u` at time `now` with the given lifetime. -/
def mkToken (u : User) (now ttl : Nat) : Token :=
  { userId := u.id, issuedAt := now, exp := now + ttl }

/-- The error detail simplejwt's `TokenObtainSerializer` raises for any
authentication failure (unknown username, wrong password, inactive user). -/
def noActiveAccountDetail : String :=
  "No active account found with the given credentials"

/-- The response of the login endpoint, by constructor:
HTTP 429 with a retry hint, HTTP 200 with both tokens, or HTTP 401 with
the uniform error detail. -/
inductive LoginResponse where
  | rateLimited (retryAfter : Nat)
  | success (access refresh : Token)
  | invalidCredentials (detail : String)
deriving Repr, DecidableEq

/-- The HTTP status code of each login response. -/
def LoginResponse.statusCode : LoginResponse → Nat
  | .rateLimited _ => 429
  | .success _ _ => 200
  | .invalidCredentials _ => 401

/-- Observable side-channel events of a login call: a credential-store
lookup, and the creation of a `LoginAttempt` row. -/
inductive Event where
  | credentialLookup (username : String)
  | attemptLogged (success : Bool)
deriving Repr, DecidableEq

/-- Outcome of `CustomTokenObtainPairSerializer.validate` (serializers.py,
lines 12-53): the response, the `LoginAttempt` rows it creates, and the
trace of events it performs. -/
structure SerializerOutcome where
  response : LoginResponse
  newRows : List LoginAttempt
  events : List Event
deriving Repr, DecidableEq

/-- `CustomTokenObtainPairSerializer.validate` (serializers.py, lines
12-53).  `super().validate` authenticates; on success the serializer logs
one `success=True` row for `self.user.username` and returns both tokens;
on failure it logs one `success=False` row for the *submitted* username
and re-raises, which surfaces as HTTP 401 with simplejwt's uniform detail. -/
def serializerValidate (users : List User) (req : LoginRequest) (ip : String)
    (now : Nat) : SerializerOutcome :=
  match authenticate users req.username req.password with
  | some u =>
      { response := .success (mkToken u now accessTokenLifetime)
          (mkToken u now refreshTokenLifetime)
        newRows := [{ username := u.username, ipAddress := ip
                      userAgent := req.userAgent, success := true }]
        events := [.credentialLookup req.username, .attemptLogged true] }
  | none =>
      { response := .invalidCredentials noActiveAccountDetail
        newRows := [{ username := req.username, ipAddress := ip
                      userAgent := req.userAgent, success := false }]
        events := [.credentialLookup req.username, .attemptLogged false] }

/-- Result of a full call to the login endpoint: the HTTP response, the
state after the call, and the trace of credential-store / log events. -/
structure LoginResult where
  response : LoginResponse
  state : AuthState
  events : List Event
deriving Repr, DecidableEq

/-- `CustomTokenObtainPairView.post` (views.py, lines 29-48).  Reads the
failure counter for the client IP; if it is `>= 5` it returns HTTP 429
with `retry_after = 300` at once (no serializer call, no log row, no cache
write).  Otherwise it runs the serializer and, when the response status is
not 200, writes `attempts + 1` back to the cache with a fresh 300-second
expiry. -/
def loginPost (st : AuthState) (req : LoginRequest) (now : Nat) : LoginResult :=
  let ip := getClientIp req
  let key := cacheKey ip
  let attempts := cacheGet st.cache key now
  if attempts ≥ 5 then
    { response := .rateLimited 300, state := st, events := [] }
  else
    let out := serializerValidate st.users req ip now
    let st1 : AuthState := { st with attempts := st.attempts ++ out.newRows }
    let st2 : AuthState :=
      if out.response.statusCode ≠ 200 then
        { st1 with cache := cacheSet st1.cache key (attempts + 1) (now + 300) }
      else st1
    { response := out.response, state := st2, events := out.events }

/-! ### Token validation (`validate_token`, views.py lines 58-99) -/

/-- The decoded JWT payload the view reads: `user_id` and the `exp` claim. -/
structure TokenPayload where
  userId : Nat
  exp : Nat
deriving Repr, DecidableEq

/-- The response of `validate_token`, by constructor.  The first three are
HTTP 401 with `valid = false`; `ok` is HTTP 200 with the user's id and
username and the `X-User` header set. -/
inductive ValidateResult where
  | missing
  | invalid
  | userNotFound
  | ok (userId : Nat) (username : String)
deriving Repr, DecidableEq

/-- The HTTP status code of each validation response. -/
def ValidateResult.status : ValidateResult → Nat
  | .ok _ _ => 200
  | _ => 401

/-- The `valid` field of each validation response body. -/
def ValidateResult.valid : ValidateResult → Bool
  | .ok _ _ => true
  | _ => false

/-- The `X-User` response header (views.py, line 87): set to the username
on success, absent otherwise. -/
def ValidateResult.xUser : ValidateResult → Option String
  | .ok _ u => some u
  | _ => none

/-- User lookup by primary key, `User.objects.get(id=user_id)`
(views.py, line 79). -/
def findById (users : List User) (uid : Nat) : Option User :=
  users.find? (fun u => u.id == uid)

/-- `auth_header.split(' ')[1]` (views.py, line 68). -/
def bearerToken (h : String) : String := (pySplit h ' ').getD 1 ""

/-- `validate_token` (views.py, lines 58-99).  `decode` stands for the
signature check and payload decoding done by `UntypedToken` / `jwt.decode`
with the server secret: `none` means the string is not a token signed with
the server key (malformed or bad signature).  The `exp` claim is checked
against the current time: simplejwt rejects exactly when `exp <= now`.
Branches: no header or not `Bearer `-prefixed -> `missing`; signature or
expiry failure -> `invalid` (`TokenError`); user id not in the store ->
`userNotFound`; otherwise `ok`. -/
def validateToken (users : List User) (decode : String → Option TokenPayload)
    (now : Nat) (authHeader : Option String) : ValidateResult :=
  match authHeader with
  | none => .missing
  | some h =>
    if pyStartsWith h "Bearer " then
      match decode (bearerToken h) with
      | none => .invalid
      | some p =>
        if p.exp ≤ now then .invalid
        else
          match findById users p.userId with
          | none => .userNotFound
          | some u => .ok u.id u.username

    else .missing

/-! ### Interleaving model of the rate-limiter update

`CustomTokenObtainPairView.post` updates the failure counter with two
separate cache operations: a read (`attempts = cache.get(cache_key, 0)`,
views.py line 33) and, on the failure path, a write
(`cache.set(cache_key, attempts + 1, 300)`, views.py line 46) of the
*previously read* value plus one.  Each cache operation is atomic, but the
pair is not.  The model below runs two concurrent failed-login requests
for the same IP as two threads, each executing read-then-write on the
shared counter, under an arbitrary interleaving. -/

/-- The progress of one failed-login request through its two cache
operations: not yet read; read done, holding the value it saw (the local
Python variable `attempts`); write done. -/
inductive ThreadPhase where
  | start
  | readDone (attempts : Nat)
  | finished
deriving Repr, DecidableEq

/-- One atomic step of a request thread against the shared counter:
`start` performs `cache.get` (recording the value read), `readDone v`
performs `cache.set(v + 1)`.  Returns the new phase and new counter. -/
def stepThread (counter : Nat) : ThreadPhase → ThreadPhase × Nat
  | .start => (.readDone counter, counter)
  | .readDone v => (.finished, v + 1)
  | .finished => (.finished, counter)

/-- Shared counter plus the phases of two concurrent failed-login
requests from the same IP. -/
structure RaceState where
  counter : Nat
  threadA : ThreadPhase
  threadB : ThreadPhase
deriving Repr, DecidableEq

/-- Thread identifiers for the two concurrent requests. -/
inductive Tid where
  | A
  | B
deriving Repr, DecidableEq

/-- Let the named thread take its next atomic cache operation. -/
def raceStep (s : RaceState) : Tid → RaceState
  | .A =>
    let (ph, c) := stepThread s.counter s.threadA
    { s with threadA := ph, counter := c }
  | .B =>
    let (ph, c) := stepThread s.counter s.threadB
    { s with threadB := ph, counter := c }

/-- Run the two threads under the given schedule (list of thread ids). -/
def runSched (s : RaceState) : List Tid → RaceState
  | [] => s
  | t :: ts => runSched (raceStep s t) ts

/-! ### Concrete fixtures, used by witnesses and counterexamples -/

/-- A provisioned active account. -/
def exAlice : User :=
  { id := 1, username := "alice", password := "secret", isActive := true
    failedLoginAttempts := 0, lastFailedLogin := none
    isBlocked := false, blockedUntil := none }

/-- A credential store holding exactly `exAlice`. -/
def exUsers : List User := [exAlice]

/-- Initial state: one user, empty log, empty cache. -/
def exState : AuthState := { users := exUsers, attempts := [], cache := [] }

/-- State whose cache already records 5 failures for IP `1.2.3.4`,
expiring at time 100. -/
def exLimitedState : AuthState :=
  { users := exUsers, attempts := []
    cache := [(cacheKey "1.2.3.4", { count := 5, expiresAt := 100 })] }

/-- A login request with correct credentials from IP `1.2.3.4`. -/
def exReqGood : LoginRequest :=
  { username := "alice", password := "secret", xForwardedFor := none
    remoteAddr := "1.2.3.4", userAgent := "ua" }

/-- A login request for the existing user with a wrong password. -/
def exReqBadPw : LoginRequest :=
  { username := "alice", password := "wrong", xForwardedFor := none
    remoteAddr := "1.2.3.4", userAgent := "ua" }

/-- A login request for a username that is not in the credential store. -/
def exReqNoUser : LoginRequest :=
  { username := "mallory", password := "whatever", xForwardedFor := none
    remoteAddr := "1.2.3.4", userAgent := "ua" }

/-- A concrete signature-check/decode oracle: exactly the string `tok1`
is a well-signed token, with payload `user_id = 1`, `exp = 100`. -/
def exDecode : String → Option TokenPayload :=
  fun s => if s == "tok1" then some { userId := 1, exp := 100 } else none

/-! ### Path lemmas for `loginPost`

One lemma per control-flow path of `CustomTokenObtainPairView.post`:
the rate-limited short circuit, the authentication-failure path, and the
success path.  The claim theorems below are derived from these. -/

/-- Rate-limited path (views.py, lines 35-40): when the counter read for
the client IP is already `>= 5`, the view returns 429 immediately and
nothing else happens. -/
theorem loginPost_limited (st : AuthState) (req : LoginRequest) (now : Nat)
    (h : cacheGet st.cache (cacheKey (getClientIp req)) now ≥ 5) :
    loginPost st req now =
      { response := .rateLimited 300, state := st, events := [] } := by
  simp only [loginPost]
  rw [if_pos h]

/-- Failure path: with the limiter below threshold and authentication
failing, the view returns 401, appends one `success = false` row for the
submitted username, and writes back `attempts + 1` with a fresh
300-second expiry. -/
theorem loginPost_auth_none (st : AuthState) (req : LoginRequest) (now : Nat)
    (hauth : authenticate st.users req.username req.password = none)
    (hlt : cacheGet st.cache (cacheKey (getClientIp req)) now < 5) :
    loginPost st req now =
      { response := .invalidCredentials noActiveAccountDetail
        state :=
          { users := st.users
            attempts := st.attempts ++
              [{ username := req.username, ipAddress := getClientIp req
                 userAgent := req.userAgent, success := false }]
            cache := cacheSet st.cache (cacheKey (getClientIp req))
              (cacheGet st.cache (cacheKey (getClientIp req)) now + 1) (now + 300) }
        events := [.credentialLookup req.username, .attemptLogged false] } := by
  simp only [loginPost]
  rw [if_neg (Nat.not_le.mpr hlt)]
  simp only [serializerValidate, hauth, LoginResponse.statusCode]
  rw [if_pos (by decide : (401 : Nat) ≠ 200)]

/-- Success path: with the limiter below threshold and authentication
succeeding for `u`, the view returns both tokens, appends one
`success = true` row for `u`, and leaves the cache untouched
(`cache.set` runs only when the status is not 200). -/
theorem loginPost_auth_some (st : AuthState) (req : LoginRequest) (now : Nat)
    (u : User)
    (hauth : authenticate st.users req.username req.password = some u)
    (hlt : cacheGet st.cache (cacheKey (getClientIp req)) now < 5) :
    loginPost st req now =
      { response := .success (mkToken u now accessTokenLifetime)
          (mkToken u now refreshTokenLifetime)
        state :=
          { users := st.users
            attempts := st.attempts ++
              [{ username := u.username, ipAddress := getClientIp req
                 userAgent := req.userAgent, success := true }]
            cache := st.cache }
        events := [.credentialLookup req.username, .attemptLogged true] } := by
  simp only [loginPost]
  rw [if_neg (Nat.not_le.mpr hlt)]
  simp only [serializerValidate, hauth, LoginResponse.statusCode]
  rw [if_neg (by simp : ¬ ((200 : Nat) ≠ 200))]

/-- Reading back the key just written by `cacheSet` yields the new value
while it has not expired. -/
theorem cacheGet_cacheSet_same (c : Cache) (key : String) (v t now : Nat)
    (h : now < t) :
    cacheGet (cacheSet c key v t) key now = v := by
  simp only [cacheGet, cacheSet]
  rw [List.find?_cons_of_pos _ (by simp)]
  simp [h]

/-- The entry stored by `cacheSet` is found verbatim under its key. -/
theorem find?_cacheSet_same (c : Cache) (key : String) (v t : Nat) :
    (cacheSet c key v t).find? (fun p => p.fst == key) =
      some (key, { count := v, expiresAt := t }) := by
  simp only [cacheSet]
  rw [List.find?_cons_of_pos _ (by simp)]

/-! ### Claim theorems -/

/-- C1: when the failure counter for the client IP is at least 5 at entry,
the login endpoint returns `RateLimited` (HTTP 429 with
`retry_after = 300`) for any submitted credentials, leaves the whole state
(login-attempt log, credential store, counter value and expiry) unchanged,
and performs no event — in particular no credential-store lookup and no
`LoginAttempt` write. -/
theorem rate_limit_short_circuit (st : AuthState) (req : LoginRequest) (now : Nat)
    (h : cacheGet st.cache (cacheKey (getClientIp req)) now ≥ 5) :
    (loginPost st req now).response = .rateLimited 300 ∧
    (loginPost st req now).response.statusCode = 429 ∧
    (loginPost st req now).state = st ∧
    (loginPost st req now).events = [] := by
  rw [loginPost_limited st req now h]
  exact ⟨rfl, rfl, rfl, rfl⟩

/-- Witness for C1: with 5 recorded failures for IP `1.2.3.4`, even the
request carrying correct credentials is rejected with 429 and no effect. -/
theorem rate_limit_short_circuit_witness :
    cacheGet exLimitedState.cache (cacheKey (getClientIp exReqGood)) 0 ≥ 5 ∧
    ((loginPost exLimitedState exReqGood 0).response = .rateLimited 300 ∧
     (loginPost exLimitedState exReqGood 0).response.statusCode = 429 ∧
     (loginPost exLimitedState exReqGood 0).state = exLimitedState ∧
     (loginPost exLimitedState exReqGood 0).events = []) :=
  ⟨by decide, rate_limit_short_circuit exLimitedState exReqGood 0 (by decide)⟩

/-- C3: a failed login from an IP whose counter currently reads `c < 5`
leaves the counter at `c + 1` (so `1` when no live entry existed, since
`cache.get` then defaults to `0`), and the stored entry's expiry is reset
to `now + 300` — the window slides on every write. -/
theorem record_failure_spec (st : AuthState) (req : LoginRequest) (now c : Nat)
    (hauth : authenticate st.users req.username req.password = none)
    (hc : cacheGet st.cache (cacheKey (getClientIp req)) now = c)
    (hlt : c < 5) :
    cacheGet (loginPost st req now).state.cache (cacheKey (getClientIp req)) now
      = c + 1 ∧
    (loginPost st req now).state.cache.find?
        (fun p => p.fst == cacheKey (getClientIp req)) =
      some (cacheKey (getClientIp req), { count := c + 1, expiresAt := now + 300 }) := by
  rw [loginPost_auth_none st req now hauth (hc ▸ hlt)]
  dsimp only
  rw [hc]
  exact ⟨cacheGet_cacheSet_same _ _ _ _ _ (by omega), find?_cacheSet_same _ _ _ _⟩

/-- Witness for C3: a failed attempt against an empty cache initializes
the counter to 1 with expiry 300 seconds from the time of the write. -/
theorem record_failure_spec_witness :
    authenticate exState.users exReqBadPw.username exReqBadPw.password = none ∧
    cacheGet exState.cache (cacheKey (getClientIp exReqBadPw)) 0 = 0 ∧
    (cacheGet (loginPost exState exReqBadPw 0).state.cache
        (cacheKey (getClientIp exReqBadPw)) 0 = 0 + 1 ∧
     (loginPost exState exReqBadPw 0).state.cache.find?
         (fun p => p.fst == cacheKey (getClientIp exReqBadPw)) =
       some (cacheKey (getClientIp exReqBadPw), { count := 0 + 1, expiresAt := 0 + 300 })) :=
  ⟨by decide, by decide,
   record_failure_spec exState exReqBadPw 0 0 (by decide) (by decide) (by decide)⟩

/-- C4: a login with correct credentials from an IP with fewer than 5
failures in the window succeeds with HTTP 200, returns both an access and
a refresh token (each carrying the user's id and issued-at timestamp), and
appends exactly one `success = true` `LoginAttempt` row for that user. -/
theorem login_success_spec (st : AuthState) (req : LoginRequest) (now : Nat)
    (u : User)
    (hauth : authenticate st.users req.username req.password = some u)
    (hlt : cacheGet st.cache (cacheKey (getClientIp req)) now < 5) :
    (loginPost st req now).response =
      .success (mkToken u now accessTokenLifetime)
        (mkToken u now refreshTokenLifetime) ∧
    (loginPost st req now).response.statusCode = 200 ∧
    (loginPost st req now).state.attempts =
      st.attempts ++ [{ username := u.username, ipAddress := getClientIp req
                        userAgent := req.userAgent, success := true }] := by
  rw [loginPost_auth_some st req now u hauth hlt]
  exact ⟨rfl, rfl, rfl⟩

/-- Witness for C4: `alice` logging in with the right password from a
clean state gets both tokens and one `success = true` log row. -/
theorem login_success_spec_witness :
    authenticate exState.users exReqGood.username exReqGood.password = some exAlice ∧
    cacheGet exState.cache (cacheKey (getClientIp exReqGood)) 0 < 5 ∧
    ((loginPost exState exReqGood 0).response =
       .success (mkToken exAlice 0 accessTokenLifetime)
         (mkToken exAlice 0 refreshTokenLifetime) ∧
     (loginPost exState exReqGood 0).response.statusCode = 200 ∧
     (loginPost exState exReqGood 0).state.attempts =
       exState.attempts ++ [{ username := exAlice.username
                              ipAddress := getClientIp exReqGood
                              userAgent := exReqGood.userAgent, success := true }]) :=
  ⟨by decide, by decide,
   login_success_spec exState exReqGood 0 exAlice (by decide) (by decide)⟩

/-- C5: a non-rate-limited login with invalid credentials (unknown
username or wrong password) returns HTTP 401 with the uniform error
detail and appends exactly one `success = false` `LoginAttempt` row
recording the submitted username, whether or not that username exists. -/
theorem login_failure_spec (st : AuthState) (req : LoginRequest) (now : Nat)
    (hauth : authenticate st.users req.username req.password = none)
    (hlt : cacheGet st.cache (cacheKey (getClientIp req)) now < 5) :
    (loginPost st req now).response = .invalidCredentials noActiveAccountDetail ∧
    (loginPost st req now).response.statusCode = 401 ∧
    (loginPost st req now).state.attempts =
      st.attempts ++ [{ username := req.username, ipAddress := getClientIp req
                        userAgent := req.userAgent, success := false }] := by
  rw [loginPost_auth_none st req now hauth hlt]
  exact ⟨rfl, rfl, rfl⟩

/-- Witness for C5: a login attempt for the nonexistent username
`mallory` yields 401 and one `success = false` row recording `mallory`. -/
theorem login_failure_spec_witness :
    authenticate exState.users exReqNoUser.username exReqNoUser.password = none ∧
    cacheGet exState.cache (cacheKey (getClientIp exReqNoUser)) 0 < 5 ∧
    ((loginPost exState exReqNoUser 0).response =
       .invalidCredentials noActiveAccountDetail ∧
     (loginPost exState exReqNoUser 0).response.statusCode = 401 ∧
     (loginPost exState exReqNoUser 0).state.attempts =
       exState.attempts ++ [{ username := "mallory", ipAddress := "1.2.3.4"
                              userAgent := "ua", success := false }]) :=
  ⟨by decide, by decide,
   login_failure_spec exState exReqNoUser 0 (by decide) (by decide)⟩

/-- C6: the token-validation endpoint, by cases.  No header or a header
not starting with `Bearer ` yields `missing` (401, `valid = false`); a
signature failure or an expired `exp` claim yields `invalid` (401,
`valid = false`); a structurally valid token whose user id is not in the
store yields `userNotFound` (401, `valid = false`); otherwise HTTP 200
with the user's id and username and the `X-User` header set to the
username. -/
theorem validate_token_spec (users : List User)
    (decode : String → Option TokenPayload) (now : Nat)
    (header : Option String) :
    ((header = none ∨ ∃ h, header = some h ∧ pyStartsWith h "Bearer " = false) →
      validateToken users decode now header = .missing ∧
      ValidateResult.status .missing = 401 ∧
      ValidateResult.valid .missing = false) ∧
    (∀ h, header = some h → pyStartsWith h "Bearer " = true →
      decode (bearerToken h) = none →
      validateToken users decode now header = .invalid ∧
      ValidateResult.status .invalid = 401 ∧
      ValidateResult.valid .invalid = false) ∧
    (∀ h p, header = some h → pyStartsWith h "Bearer " = true →
      decode (bearerToken h) = some p → p.exp ≤ now →
      validateToken users decode now header = .invalid) ∧
    (∀ h p, header = some h → pyStartsWith h "Bearer " = true →
      decode (bearerToken h) = some p → now < p.exp →
      findById users p.userId = none →
      validateToken users decode now header = .userNotFound ∧
      ValidateResult.status .userNotFound = 401 ∧
      ValidateResult.valid .userNotFound = false) ∧
    (∀ h p u, header = some h → pyStartsWith h "Bearer " = true →
      decode (bearerToken h) = some p → now < p.exp →
      findById users p.userId = some u →
      validateToken users decode now header = .ok u.id u.username ∧
      ValidateResult.status (.ok u.id u.username) = 200 ∧
      ValidateResult.xUser (.ok u.id u.username) = some u.username) := by
  refine ⟨?_, ?_, ?_, ?_, ?_⟩
  · rintro (rfl | ⟨h, rfl, hb⟩)
    · exact ⟨rfl, rfl, rfl⟩
    · exact ⟨by simp [validateToken, hb], rfl, rfl⟩
  · rintro h rfl hb hdec
    exact ⟨by simp [validateToken, hb, hdec], rfl, rfl⟩
  · rintro h p rfl hb hdec hexp
    simp [validateToken, hb, hdec, hexp]
  · rintro h p rfl hb hdec hnow hfind
    exact ⟨by simp [validateToken, hb, hdec, hfind, Nat.not_le.mpr hnow], rfl, rfl⟩
  · rintro h p u rfl hb hdec hnow hfind
    exact ⟨by simp [validateToken, hb, hdec, hfind, Nat.not_le.mpr hnow], rfl, rfl⟩

/-- Witness for C6: a missing header is rejected, and a well-signed,
unexpired token for the provisioned user id 1 validates to 200. -/
theorem validate_token_spec_witness :
    validateToken exUsers exDecode 50 none = .missing ∧
    validateToken exUsers exDecode 50 (some "Bearer tok1") = .ok 1 "alice" := by
  constructor
  · exact ((validate_token_spec exUsers exDecode 50 none).1 (Or.inl rfl)).1
  · exact ((validate_token_spec exUsers exDecode 50 (some "Bearer tok1")).2.2.2.2
      "Bearer tok1" { userId := 1, exp := 100 } exAlice rfl (by decide) (by decide)
      (by decide) (by decide)).1

/-- C7: for a well-signed token whose `exp` claim is `T` and whose user
exists, validation succeeds at every time strictly before `T` and returns
`invalid` at every time at or after `T`; since the check depends only on
the current time, expiry is permanent and there is no revocation path. -/
theorem token_expiry_boundary (users : List User)
    (decode : String → Option TokenPayload) (h : String) (p : TokenPayload)
    (u : User) (T : Nat)
    (hb : pyStartsWith h "Bearer " = true)
    (hdec : decode (bearerToken h) = some p)
    (hT : p.exp = T)
    (hu : findById users p.userId = some u) :
    (∀ now, now < T →
      validateToken users decode now (some h) = .ok u.id u.username) ∧
    (∀ now, T ≤ now →
      validateToken users decode now (some h) = .invalid) := by
  subst hT
  constructor
  · intro now hnow
    simp [validateToken, hb, hdec, hu, Nat.not_le.mpr hnow]
  · intro now hnow
    simp [validateToken, hb, hdec, hnow]

/-- Witness for C7: a token with `exp = 100` validates at time 99 and is
`invalid` at times 100 and 1000. -/
theorem token_expiry_boundary_witness :
    pyStartsWith "Bearer tok1" "Bearer " = true ∧
    exDecode (bearerToken "Bearer tok1") = some { userId := 1, exp := 100 } ∧
    findById exUsers 1 = some exAlice ∧
    validateToken exUsers exDecode 99 (some "Bearer tok1") = .ok 1 "alice" ∧
    validateToken exUsers exDecode 100 (some "Bearer tok1") = .invalid ∧
    validateToken exUsers exDecode 1000 (some "Bearer tok1") = .invalid := by
  refine ⟨by decide, by decide, by decide, ?_, ?_, ?_⟩
  · exact (token_expiry_boundary exUsers exDecode "Bearer tok1"
      { userId := 1, exp := 100 } exAlice 100 (by decide) (by decide) rfl
      (by decide)).1 99 (by decide)
  · exact (token_expiry_boundary exUsers exDecode "Bearer tok1"
      { userId := 1, exp := 100 } exAlice 100 (by decide) (by decide) rfl
      (by decide)).2 100 (by decide)
  · exact (token_expiry_boundary exUsers exDecode "Bearer tok1"
      { userId := 1, exp := 100 } exAlice 100 (by decide) (by decide) rfl
      (by decide)).2 1000 (by decide)

/-- C8: a non-rate-limited login for an existing username with a wrong
password and one for a nonexistent username produce identical responses:
the same constructor, the same uniform error detail, and the same HTTP
status code — nothing reveals whether the username exists. -/
theorem invalid_credentials_indistinguishable (st : AuthState)
    (r1 r2 : LoginRequest) (now : Nat) (u : User)
    (h1 : cacheGet st.cache (cacheKey (getClientIp r1)) now < 5)
    (h2 : cacheGet st.cache (cacheKey (getClientIp r2)) now < 5)
    (hu : findByUsername st.users r1.username = some u)
    (hpw : u.password ≠ r1.password)
    (hn : findByUsername st.users r2.username = none) :
    (loginPost st r1 now).response = (loginPost st r2 now).response ∧
    (loginPost st r1 now).response.statusCode =
      (loginPost st r2 now).response.statusCode := by
  have ha1 : authenticate st.users r1.username r1.password = none := by
    simp [authenticate, hu, beq_eq_false_iff_ne.mpr hpw]
  have ha2 : authenticate st.users r2.username r2.password = none := by
    simp [authenticate, hn]
  rw [loginPost_auth_none st r1 now ha1 h1, loginPost_auth_none st r2 now ha2 h2]
  exact ⟨rfl, rfl⟩

/-- Witness for C8: `alice` with a wrong password and the nonexistent
`mallory` receive the same response. -/
theorem invalid_credentials_indistinguishable_witness :
    findByUsername exState.users exReqBadPw.username = some exAlice ∧
    findByUsername exState.users exReqNoUser.username = none ∧
    ((loginPost exState exReqBadPw 0).response =
       (loginPost exState exReqNoUser 0).response ∧
     (loginPost exState exReqBadPw 0).response.statusCode =
       (loginPost exState exReqNoUser 0).response.statusCode) :=
  ⟨by decide, by decide,
   invalid_credentials_indistinguishable exState exReqBadPw exReqNoUser 0 exAlice
     (by decide) (by decide) (by decide) (by decide) (by decide)⟩

/-- Counterexample to C9 as stated: a failed login and a successful login
against the existing user `alice` both leave the credential store — and
hence all four lockout fields of `alice`'s record, still at their
defaults — exactly as they were.  The login flow never writes
`failed_login_attempts`, `last_failed_login`, `is_blocked` or
`blocked_until`. -/
theorem login_lockout_fields_never_updated_cex :
    findByUsername exState.users "alice" = some exAlice ∧
    (loginPost exState exReqBadPw 0).state.users = [exAlice] ∧
    (loginPost exState exReqGood 0).state.users = [exAlice] ∧
    exAlice.failedLoginAttempts = 0 ∧ exAlice.lastFailedLogin = none ∧
    exAlice.isBlocked = false ∧ exAlice.blockedUntil = none := by
  refine ⟨by decide, by decide, by decide, rfl, rfl, rfl, rfl⟩

/-- C9 (amended): the login flow never mutates any `User` record — in
particular the account-lockout fields declared in the model
(`failed_login_attempts`, `last_failed_login`, `is_blocked`,
`blocked_until`) are dead in this flow: for every login attempt the
credential store after the call equals the store before it. -/
theorem login_never_mutates_users (st : AuthState) (req : LoginRequest)
    (now : Nat) :
    (loginPost st req now).state.users = st.users := by
  simp only [loginPost]
  split
  · rfl
  · split <;> rfl

/-- C10: a login that returns HTTP 200 leaves the cache — and with it the
failure counter entry for the requesting IP, both its value and its
expiry — exactly as it was before the request. -/
theorem success_preserves_counter (st : AuthState) (req : LoginRequest)
    (now : Nat)
    (h200 : (loginPost st req now).response.statusCode = 200) :
    (loginPost st req now).state.cache = st.cache := by
  rcases Nat.lt_or_ge (cacheGet st.cache (cacheKey (getClientIp req)) now) 5 with
    hlt | hge
  · cases hauth : authenticate st.users req.username req.password with
    | none =>
      rw [loginPost_auth_none st req now hauth hlt] at h200
      simp [LoginResponse.statusCode] at h200
    | some u =>
      rw [loginPost_auth_some st req now u hauth hlt]
  · rw [loginPost_limited st req now hge] at h200
    simp [LoginResponse.statusCode] at h200

/-- Witness for C10: after `alice` logs in successfully, the cache is
unchanged. -/
theorem success_preserves_counter_witness :
    (loginPost exState exReqGood 0).response.statusCode = 200 ∧
    (loginPost exState exReqGood 0).state.cache = exState.cache :=
  ⟨by decide, success_preserves_counter exState exReqGood 0 (by decide)⟩

/-- Refutes C2 on the code: the view's counter update is a read
(views.py line 33) followed by a write of `read value + 1` (line 46), two
separate cache operations.  Under the interleaving `A.read, B.read,
A.write, B.write`, two concurrent failed attempts starting from counter 0
finish with counter 1, not 2 — one increment is lost; the sequential
schedule `A.read, A.write, B.read, B.write` yields 2. -/
theorem counter_race_lost_update :
    runSched { counter := 0, threadA := .start, threadB := .start }
        [.A, .B, .A, .B] =
      { counter := 1, threadA := .finished, threadB := .finished } ∧
    runSched { counter := 0, threadA := .start, threadB := .start }
        [.A, .A, .B, .B] =
      { counter := 2, threadA := .finished, threadB := .finished } ∧
    (1 : Nat) ≠ 2 := by
  refine ⟨rfl, rfl, by decide⟩

end Asrs
